import Mathlib

/-!
Verification of the EEG love-detection frontend
(`src/frontend/components/ImageLoveAnalysis.tsx`,
`src/frontend/components/EEGDashboard.tsx`,
`src/frontend/components/EEGDashboard.js`).

The analysis code is plain JavaScript arithmetic over the captured sample
buffers.  We embed it shallowly: JavaScript numbers are modelled by `JSNum`
(an exact rational together with the three non-finite values `nan`,
`posInf`, `negInf`, with IEEE-style propagation and comparison rules);
sample buffers are lists of `EEGSample`; each analysis function is a pure
Lean function translated clause by clause from the source.
-/

namespace EEG

/-- Model of a JavaScript number: either a finite value (kept as an exact
rational; the binary rounding of float64 is abstracted away) or one of the
non-finite values `NaN`, `+Infinity`, `-Infinity`.  Negative zero is
identified with zero, which is adequate here because every division in the
embedded code has a non-negative denominator. -/
inductive JSNum where
  | nan : JSNum
  | posInf : JSNum
  | negInf : JSNum
  | num : Rat → JSNum
deriving DecidableEq, Repr

namespace JSNum

/-- JavaScript `+` on numbers: `NaN` absorbs, opposite infinities give `NaN`. -/
def add : JSNum → JSNum → JSNum
  | nan, _ => nan
  | _, nan => nan
  | posInf, negInf => nan
  | negInf, posInf => nan
  | posInf, _ => posInf
  | _, posInf => posInf
  | negInf, _ => negInf
  | _, negInf => negInf
  | num a, num b => num (a + b)

instance : Add JSNum := ⟨add⟩

/-- JavaScript `*` on numbers: `NaN` absorbs, `Infinity * 0` is `NaN`,
otherwise infinities keep the sign of the product. -/
def mul : JSNum → JSNum → JSNum
  | nan, _ => nan
  | _, nan => nan
  | posInf, posInf => posInf
  | posInf, negInf => negInf
  | negInf, posInf => negInf
  | negInf, negInf => posInf
  | posInf, num b => if 0 < b then posInf else if b < 0 then negInf else nan
  | num a, posInf => if 0 < a then posInf else if a < 0 then negInf else nan
  | negInf, num b => if 0 < b then negInf else if b < 0 then posInf else nan
  | num a, negInf => if 0 < a then negInf else if a < 0 then posInf else nan
  | num a, num b => num (a * b)

instance : Mul JSNum := ⟨mul⟩

/-- JavaScript division of two finite values: division by zero yields `NaN`
when the numerator is zero and a signed infinity otherwise. -/
def divRat (a b : Rat) : JSNum :=
  if b = 0 then (if a = 0 then nan else if 0 < a then posInf else negInf)
  else num (a / b)

/-- JavaScript `<`: any comparison involving `NaN` is false. -/
def lt : JSNum → JSNum → Bool
  | nan, _ => false
  | _, nan => false
  | posInf, _ => false
  | _, posInf => true
  | negInf, negInf => false
  | negInf, _ => true
  | _, negInf => false
  | num a, num b => decide (a < b)

/-- JavaScript `<=`: any comparison involving `NaN` is false. -/
def le : JSNum → JSNum → Bool
  | nan, _ => false
  | _, nan => false
  | negInf, _ => true
  | _, negInf => false
  | _, posInf => true
  | posInf, _ => false
  | num a, num b => decide (a ≤ b)

/-- JavaScript `Math.max` on two arguments: `NaN` absorbs. -/
def jsMax : JSNum → JSNum → JSNum
  | nan, _ => nan
  | _, nan => nan
  | posInf, _ => posInf
  | _, posInf => posInf
  | negInf, b => b
  | a, negInf => a
  | num a, num b => num (max a b)

/-- JavaScript `Math.min` on two arguments: `NaN` absorbs. -/
def jsMin : JSNum → JSNum → JSNum
  | nan, _ => nan
  | _, nan => nan
  | negInf, _ => negInf
  | _, negInf => negInf
  | posInf, b => b
  | a, posInf => a
  | num a, num b => num (min a b)

/-- Whether the value is finite. -/
def isNum : JSNum → Bool
  | num _ => true
  | _ => false

/-- The rational value of a finite `JSNum` (`0` for non-finite values). -/
def toRat : JSNum → Rat
  | num q => q
  | _ => 0

end JSNum

/-- A decoded sample as received by the dashboards over the WebSocket
(message shape `{type: "eeg", timestamp, channels, packet_num}`).  The
display-only `id` string (built from `Date.now()` and `Math.random()`) is
not read by any analysis code and is omitted. -/
structure EEGSample where
  timestamp : Rat
  channels : List Rat
  packet_num : Nat
deriving DecidableEq, Repr

/-- Extraction of one channel's time series from a buffer:
`imageData.map(sample => sample.channels[ch] || 0)` — a missing entry reads
as `0`, exactly like the JavaScript `|| 0` guard. -/
def channelData (buf : List EEGSample) (ch : Nat) : List Rat :=
  buf.map (fun s => s.channels.getD ch 0)

/-- Mean of a channel's samples:
`channelData.reduce((a, b) => a + b, 0) / channelData.length`.
Every caller in the source guards the buffer to be non-empty, so the
`length = 0` case (where `Rat` division yields `0` while JavaScript would
yield `NaN`) is unreachable in all theorems below, which carry a
non-emptiness hypothesis. -/
def mean (cd : List Rat) : Rat :=
  cd.sum / cd.length

/-- Average absolute amplitude of a channel:
`absValues.reduce((a, b) => a + b, 0) / absValues.length`.  Same
non-emptiness remark as for `mean`. -/
def avgAmplitude (cd : List Rat) : Rat :=
  ((cd.map (fun v => |v|)).sum) / cd.length

/-- Zero-crossing counter from `EnhancedEEGDashboard.analyzeCapture`
(`EEGDashboard.js`): a loop over consecutive pairs incrementing when the
earlier value is strictly negative and the later strictly positive or vice
versa. -/
def zeroCrossings : List Rat → Nat
  | a :: b :: tl =>
      (if (a < 0 ∧ 0 < b) ∨ (0 < a ∧ b < 0) then 1 else 0) + zeroCrossings (b :: tl)
  | _ => 0

/-- Dominant-frequency estimate:
`const dominantFreq = (zeroCrossings / 2) / 5` (crossings to Hz over the
5-second window). -/
def dominantFreq (cd : List Rat) : Rat :=
  ((zeroCrossings cd : Rat) / 2) / 5

/-- Per-channel coarse band estimates. -/
structure FrequencyBands where
  delta : Rat
  theta : Rat
  alpha : Rat
  beta : Rat
  gamma : Rat
deriving DecidableEq, Repr

/-- Band-power assignment from `EnhancedEEGDashboard.analyzeCapture`
(`EEGDashboard.js`, the `frequencyBands.push` object): each band gets
`avgAmplitude * 0.8` when `dominantFreq` falls in its range and
`avgAmplitude * 0.1` or `avgAmplitude * 0.2` otherwise. -/
def frequencyBands (cd : List Rat) : FrequencyBands :=
  let amp := avgAmplitude cd
  let f := dominantFreq cd
  { delta := if f < 4 then amp * 0.8 else amp * 0.1
    theta := if 4 ≤ f ∧ f < 8 then amp * 0.8 else amp * 0.1
    alpha := if 8 ≤ f ∧ f < 12 then amp * 0.8 else amp * 0.2
    beta := if 12 ≤ f ∧ f < 30 then amp * 0.8 else amp * 0.2
    gamma := if 30 ≤ f then amp * 0.8 else amp * 0.1 }

/-- Frontal asymmetry
`(rightFrontal - leftFrontal) / (rightFrontal + leftFrontal)`, computed in
JavaScript arithmetic (both files): when both amplitudes are `0` the
division is `0 / 0 = NaN`. -/
def frontalAsymmetry (leftFrontal rightFrontal : Rat) : JSNum :=
  JSNum.divRat (rightFrontal - leftFrontal) (rightFrontal + leftFrontal)

/-- Composite love score, the block shared verbatim by
`analyzeImageData` (`ImageLoveAnalysis.tsx`) and
`EnhancedEEGDashboard.analyzeCapture` (`EEGDashboard.js`):
start at 50; add `frontalAsymmetry * 30` when `frontalAsymmetry > 0`
(false for `NaN`); add 10/15/15 as `avgAmp` exceeds 20/40/60;
finally `Math.min(100, Math.max(0, loveScore))`. -/
def computeLoveScore (fa : JSNum) (avgAmp : Rat) : JSNum :=
  let s0 : JSNum := .num 50
  let s1 : JSNum := if JSNum.lt (.num 0) fa then s0 + fa * .num 30 else s0
  let s2 : JSNum := if 20 < avgAmp then s1 + .num 10 else s1
  let s3 : JSNum := if 40 < avgAmp then s2 + .num 15 else s2
  let s4 : JSNum := if 60 < avgAmp then s3 + .num 15 else s3
  JSNum.jsMin (.num 100) (JSNum.jsMax (.num 0) s4)

/-- Category labelling, identical in both analysis engines (the `.js` file
stores the same five labels, mojibake-encoded): nested `>=` tests at
80/60/40/20.  A `NaN` score would fail every test and fall to the lowest
label. -/
def category (loveScore : JSNum) : String :=
  if JSNum.le (.num 80) loveScore then "Love at First Sight! 💘"
  else if JSNum.le (.num 60) loveScore then "Strong Attraction 💕"
  else if JSNum.le (.num 40) loveScore then "Interested 💗"
  else if JSNum.le (.num 20) loveScore then "Neutral 😐"
  else "Not Interested 💔"

/-- The five stimulus image paths of `ImageLoveAnalysis.tsx`. -/
def images : List String :=
  ["/photo/1.png", "/photo/2.jpeg", "/photo/3.jpeg", "/photo/4.jpeg", "/photo/5.png"]

/-- Per-image result object of `ImageLoveAnalysis.tsx`.  The source stores
`loveScore` as the string `loveScore.toFixed(1)` and reads it back with
`parseFloat` in the winner reduce; we keep the numeric value (the
display-only one-decimal formatting is abstracted away).  `avgAmplitude`
and `frontalAsymmetry` are absent (`undefined`) on the no-data placeholder,
hence `Option`. -/
structure ImageResult where
  imageIndex : Nat
  imagePath : String
  loveScore : JSNum
  category : String
  avgAmplitude : Option Rat
  frontalAsymmetry : Option JSNum
  packets : Nat
deriving DecidableEq, Repr

/-- Translation of `analyzeImageData` (`ImageLoveAnalysis.tsx`): per-channel
average amplitudes over channels 0–7, frontal asymmetry from channels 0 and
1, cross-channel mean amplitude, composite score and category.  The
returned `frontalAsymmetry` field is the display value
`50 + frontalAsymmetry * 50` (a `NaN` when the asymmetry is `NaN`). -/
def analyzeImageData (imageData : List EEGSample) (imageIndex : Nat) : ImageResult :=
  let amp : Nat → Rat := fun ch => avgAmplitude (channelData imageData ch)
  let leftFrontal := amp 0
  let rightFrontal := amp 1
  let fa := frontalAsymmetry leftFrontal rightFrontal
  let avgAmp := ((List.range 8).map amp).sum / 8
  let loveScore := computeLoveScore fa avgAmp
  { imageIndex := imageIndex
    imagePath := images.getD imageIndex ""
    loveScore := loveScore
    category := category loveScore
    avgAmplitude := some avgAmp
    frontalAsymmetry := some (.num 50 + fa * .num 50)
    packets := imageData.length }

/-- The placeholder `analyzeAllImages` pushes for a stimulus whose buffer is
empty: `{imageIndex: i, imagePath: images[i], loveScore: '0',
category: 'No data', packets: 0}` (the score string `'0'` parses to the
number 0). -/
def noDataResult (i : Nat) : ImageResult :=
  { imageIndex := i
    imagePath := images.getD i ""
    loveScore := .num 0
    category := "No data"
    avgAmplitude := none
    frontalAsymmetry := none
    packets := 0 }

/-- Result list built by `analyzeAllImages` (`ImageLoveAnalysis.tsx`): for
each stimulus index, the captured buffer (`capturedDataRef.current[i] || []`)
is analyzed when non-empty and replaced by the no-data placeholder when
empty. -/
def analyzeAllImages (captured : List (List EEGSample)) : List ImageResult :=
  (List.range images.length).map (fun i =>
    let imageData := captured.getD i []
    if imageData.length = 0 then noDataResult i else analyzeImageData imageData i)

/-- One step of the winner reduce:
`(max, curr) => parseFloat(curr.loveScore) > parseFloat(max.loveScore) ? curr : max`. -/
def winnerStep (mx curr : ImageResult) : ImageResult :=
  if JSNum.lt mx.loveScore curr.loveScore then curr else mx

/-- The winner reduce of `analyzeAllImages`:
`results.reduce(winnerStep, results[0])`.  JavaScript `reduce` with an
initial value visits every element, including `results[0]` itself; on an
empty list the source would read `results[0]` as `undefined`, modelled as
`none`. -/
def findWinner : List ImageResult → Option ImageResult
  | [] => none
  | r :: tl => some (List.foldl winnerStep r (r :: tl))

/-- Rounding through `toFixed(2)` followed by `parseFloat`, as
`EnhancedEEGDashboard.analyzeCapture` applies to every channel statistic.
All rounded quantities here are non-negative amplitudes, for which
`toFixed` rounds half up, matching `round`. -/
def round2 (q : Rat) : Rat :=
  ((round (q * 100) : ℤ) : Rat) / 100

/-- JavaScript `Math.max(...list)` for the non-empty lists reachable here
(on `[]` the source would yield `-Infinity`). -/
def listMax : List Rat → Rat
  | [] => 0
  | x :: tl => tl.foldl max x

/-- JavaScript `Math.min(...list)` for the non-empty lists reachable here
(on `[]` the source would yield `Infinity`). -/
def listMin : List Rat → Rat
  | [] => 0
  | x :: tl => tl.foldl min x

/-- Per-channel statistics record of `EnhancedEEGDashboard.analyzeCapture`
(`EEGDashboard.js`).  The source stores each number as a `toFixed(2)`
string; we keep the rounded value.  `channel` is the 1-based label. -/
structure ChannelStats where
  channel : Nat
  mean : Rat
  avgAmplitude : Rat
  max : Rat
  min : Rat
deriving DecidableEq, Repr

/-- Component breakdown of the love analysis
(`frontal_asymmetry`, `arousal`, `attention_p300`); the source formats each
with `toFixed(1)` for display, which maps a `NaN` asymmetry to the string
`"NaN"` — the formatting is abstracted away, the values kept exact. -/
structure LoveComponents where
  frontal_asymmetry : JSNum
  arousal : Rat
  attention_p300 : Rat
deriving DecidableEq, Repr

/-- The `loveAnalysis` object set by `EnhancedEEGDashboard.analyzeCapture`. -/
structure LoveAnalysis where
  love_score : JSNum
  category : String
  avgAmplitude : Rat
  packets : Nat
  components : LoveComponents
deriving DecidableEq, Repr

/-- One entry of the `frequencyBands` array (`channel` keeps the 1-based
index rendered by the source as the labels `Ch1` through `Ch8`). -/
structure ChannelBands where
  channel : Nat
  bands : FrequencyBands
deriving DecidableEq, Repr

/-- The full output of `EnhancedEEGDashboard.analyzeCapture`. -/
structure AnalysisResult where
  channelStats : List ChannelStats
  frequencyBands : List ChannelBands
  loveAnalysis : LoveAnalysis
deriving DecidableEq, Repr

/-- Translation of `EnhancedEEGDashboard.analyzeCapture` (`EEGDashboard.js`,
lines 536–647): per-channel statistics (stored 2-decimal rounded),
zero-crossing band estimates (from the raw amplitudes), then the love score.
Note the score uses the *rounded* channel amplitudes
(`parseFloat(channelStats[ch].avgAmplitude)`), unlike
`analyzeImageData` which uses the raw ones. -/
def analyzeCapture (dataToAnalyze : List EEGSample) : AnalysisResult :=
  let stats : List ChannelStats := (List.range 8).map (fun ch =>
    let cd := channelData dataToAnalyze ch
    { channel := ch + 1
      mean := round2 (mean cd)
      avgAmplitude := round2 (avgAmplitude cd)
      max := round2 (listMax (cd.map (fun v => |v|)))
      min := round2 (listMin cd) })
  let freqBands : List ChannelBands := (List.range 8).map (fun ch =>
    { channel := ch + 1, bands := frequencyBands (channelData dataToAnalyze ch) })
  let dummy : ChannelStats := { channel := 0, mean := 0, avgAmplitude := 0, max := 0, min := 0 }
  let leftFrontal := (stats.getD 0 dummy).avgAmplitude
  let rightFrontal := (stats.getD 1 dummy).avgAmplitude
  let fa := frontalAsymmetry leftFrontal rightFrontal
  let avgAmp := (stats.map (fun st => st.avgAmplitude)).sum / 8
  let loveScore := computeLoveScore fa avgAmp
  { channelStats := stats
    frequencyBands := freqBands
    loveAnalysis :=
      { love_score := loveScore
        category := category loveScore
        avgAmplitude := round2 avgAmp
        packets := dataToAnalyze.length
        components :=
          { frontal_asymmetry := .num 50 + fa * .num 50
            arousal := min 100 (avgAmp * 1.5)
            attention_p300 := if 40 < avgAmp then 75 else 40 } } }

/-- Outcome of the single-capture window timer (`startCapture` in
`EEGDashboard.tsx`): an empty buffer raises the "No data was captured"
alert and returns to the live view without any analysis; a non-empty buffer
is handed to the analysis step. -/
inductive CaptureOutcome where
  | captureFailure : CaptureOutcome
  | analysisRequested : List EEGSample → CaptureOutcome
deriving DecidableEq, Repr

/-- The branch at the end of the 5-second window in `startCapture`
(`EEGDashboard.tsx`, lines 270–276): `capturedPackets.length === 0` is the
distinct capture-failure path. -/
def captureWindowOutcome (buf : List EEGSample) : CaptureOutcome :=
  if buf.length = 0 then .captureFailure else .analysisRequested buf

/-- Events seen by the ref-based capture logic of `EEGDashboard.tsx` and
`ImageLoveAnalysis.tsx`: a WebSocket `eeg` message, the opening of a capture
window (`isCapturingRef.current = true` after clearing the buffer), and its
timer-driven close (`isCapturingRef.current = false`). -/
inductive CaptureEvent where
  | sampleMsg : EEGSample → CaptureEvent
  | windowOpen : CaptureEvent
  | windowClose : CaptureEvent
deriving DecidableEq, Repr

/-- The mutable refs read by the `onmessage` handler. -/
structure CaptureState where
  isCapturing : Bool
  captured : List EEGSample
deriving DecidableEq, Repr

/-- One event of the ref-based capture: `windowOpen` models
`capturedDataRef.current = []; isCapturingRef.current = true`;
`windowClose` models the timer firing (`isCapturingRef.current = false`,
buffer kept as-is); a sample message appends to the buffer exactly when
`isCapturingRef.current` holds (`capturedDataRef.current.push(sample)`). -/
def stepCapture (st : CaptureState) : CaptureEvent → CaptureState
  | .windowOpen => { isCapturing := true, captured := [] }
  | .windowClose => { st with isCapturing := false }
  | .sampleMsg s => if st.isCapturing then { st with captured := st.captured ++ [s] } else st

/-- Processing a whole event sequence. -/
def runCapture (st : CaptureState) (evs : List CaptureEvent) : CaptureState :=
  evs.foldl stepCapture st

/-- The capture path of the plain `EEGDashboard` component
(`EEGDashboard.js`, lines 44–47).  Its `onmessage` handler is registered
once by `useEffect(..., [])` and tests the **state variable** `isCapturing`,
so the handler forever sees the value the variable had when the effect ran
at mount (`false`): `isCapturingAtMount` is that closed-over value, fixed
for the life of the connection regardless of later `setIsCapturing` calls. -/
def jsDashboardCapture (isCapturingAtMount : Bool) (stream : List EEGSample) :
    List EEGSample :=
  stream.foldl (fun buf s => if isCapturingAtMount then buf ++ [s] else buf) []

/-- Claim-side restatement of the composite-score sentence of the spec:
`frontalAsymmetry = (avgAmplitude(ch2) - avgAmplitude(ch1)) /
(avgAmplitude(ch2) + avgAmplitude(ch1))`; the score starts at 50, adds
`frontalAsymmetry * 30` only when the asymmetry is positive, adds 10 when
the cross-channel mean amplitude exceeds 20 and a further 15 at 40 and at
60, and is clamped to the interval from 0 to 100. -/
def loveScoreFormulaSpec (leftAmp rightAmp avgAmp : Rat) : JSNum :=
  let fa := JSNum.divRat (rightAmp - leftAmp) (rightAmp + leftAmp)
  let asymmetryTerm : JSNum := if JSNum.lt (.num 0) fa then fa * .num 30 else .num 0
  let bonus : Rat :=
    (if 20 < avgAmp then 10 else 0) + (if 40 < avgAmp then 15 else 0) +
      (if 60 < avgAmp then 15 else 0)
  JSNum.jsMin (.num 100) (JSNum.jsMax (.num 0) ((.num 50 + asymmetryTerm) + .num bonus))

/-- Concrete buffer used by the C4 witness. -/
def bufC4 : List EEGSample :=
  [⟨0, [1, -2, 3, -4, 5, -6, 7, -8], 1⟩]

/-- Concrete buffer used by the C9 witness. -/
def bufC9 : List EEGSample :=
  [⟨0, [2, 4, 1, 1, 1, 1, 1, 1], 3⟩]

/-- Concrete buffer refuting claim C10 as stated: channels 1 and 2 are
identically zero, the remaining six channels read 30 µV. -/
def bufC10 : List EEGSample :=
  [⟨0, [0, 0, 30, 30, 30, 30, 30, 30], 0⟩]

/-- A 1250-sample stream (5 seconds at 250 Hz). -/
def streamC2 : List EEGSample :=
  (List.range 1250).map (fun (n : Nat) => ⟨(n : Rat), [10, -10, 10, -10, 10, -10, 10, -10], n⟩)

/-- Concrete buffer used by the C8 witness. -/
def bufC8 : List EEGSample :=
  [⟨0, [5, -6, 7, -8, 9, -10, 11, -12], 2⟩, ⟨1, [1, 2, 3, 4, 5, 6, 7, 8], 3⟩]

/-- Claim-side zero-crossing count, following the claim's words: the number
of consecutive pairs that move between a strictly negative and a strictly
positive value. -/
def zeroCrossCountSpec (cd : List Rat) : Nat :=
  (cd.zip cd.tail).countP (fun p => decide ((p.1 < 0 ∧ 0 < p.2) ∨ (0 < p.1 ∧ p.2 < 0)))

/-- Concrete buffer used by the C6 witness: one upward zero crossing. -/
def bufC6 : List EEGSample :=
  [⟨0, [-1, -1, -1, -1, -1, -1, -1, -1], 0⟩, ⟨1, [1, 1, 1, 1, 1, 1, 1, 1], 1⟩]

/-- Concrete buffer used by the C7 witness: its dominant frequency is
0.1 Hz, inside the delta range. -/
def bufC7 : List EEGSample :=
  [⟨0, [-1, -1, -1, -1, -1, -1, -1, -1], 0⟩, ⟨1, [1, 1, 1, 1, 1, 1, 1, 1], 1⟩]

/-- The per-stimulus score example from the claim: scores
55.0, 72.3, 72.3, 10.0, 40.0 at stimulus indices 0–4. -/
def scoresExample : List ImageResult :=
  [⟨0, "", .num 55.0, "", none, none, 0⟩,
   ⟨1, "", .num 72.3, "", none, none, 0⟩,
   ⟨2, "", .num 72.3, "", none, none, 0⟩,
   ⟨3, "", .num 10.0, "", none, none, 0⟩,
   ⟨4, "", .num 40.0, "", none, none, 0⟩]

/-!
Theorems.  The lemmas below restate and verify the embedded operations;
each claim theorem is marked with its claim id in the doc comment.
-/

namespace JSNum

@[simp] lemma num_add_num (a b : Rat) : (num a) + (num b) = num (a + b) := rfl

@[simp] lemma num_mul_num (a b : Rat) : (num a) * (num b) = num (a * b) := rfl

@[simp] lemma lt_num_num (a b : Rat) : lt (num a) (num b) = decide (a < b) := rfl

@[simp] lemma le_num_num (a b : Rat) : le (num a) (num b) = decide (a ≤ b) := rfl

@[simp] lemma jsMax_num_num (a b : Rat) : jsMax (num a) (num b) = num (max a b) := rfl

@[simp] lemma jsMin_num_num (a b : Rat) : jsMin (num a) (num b) = num (min a b) := rfl

@[simp] lemma lt_num_nan (a : Rat) : lt (num a) nan = false := rfl

@[simp] lemma lt_nan (x : JSNum) : lt nan x = false := by cases x <;> rfl

@[simp] lemma le_nan (x : JSNum) : le nan x = false := by cases x <;> rfl

@[simp] lemma toRat_num (q : Rat) : toRat (num q) = q := rfl

@[simp] lemma lt_self (x : JSNum) : lt x x = false := by
  cases x <;> simp [lt]

lemma lt_true_iff_toRat (a b : JSNum) (ha : a.isNum = true) (hb : b.isNum = true) :
    lt a b = true ↔ a.toRat < b.toRat := by
  cases a <;> cases b <;> simp_all [isNum, lt, toRat]

end JSNum

lemma mul_def (a b : JSNum) : a * b = JSNum.mul a b := rfl

lemma add_def (a b : JSNum) : a + b = JSNum.add a b := rfl

lemma computeLoveScore_eq_formulaSpec (l r avgAmp : Rat) :
    computeLoveScore (frontalAsymmetry l r) avgAmp = loveScoreFormulaSpec l r avgAmp := by
  show computeLoveScore (JSNum.divRat (r - l) (r + l)) avgAmp = _
  unfold loveScoreFormulaSpec
  cases h : JSNum.divRat (r - l) (r + l) with
  | num q =>
      by_cases hq : (0 : Rat) < q <;>
        by_cases h20 : (20 : Rat) < avgAmp <;>
        by_cases h40 : (40 : Rat) < avgAmp <;>
        by_cases h60 : (60 : Rat) < avgAmp <;>
        simp [computeLoveScore, JSNum.lt, hq, h20, h40, h60, mul_def, add_def,
          JSNum.mul, JSNum.add, JSNum.jsMax, JSNum.jsMin] <;>
        ring_nf
  | nan =>
      by_cases h20 : (20 : Rat) < avgAmp <;>
        by_cases h40 : (40 : Rat) < avgAmp <;>
        by_cases h60 : (60 : Rat) < avgAmp <;>
        simp [computeLoveScore, JSNum.lt, h20, h40, h60, mul_def, add_def,
          JSNum.mul, JSNum.add, JSNum.jsMax, JSNum.jsMin] <;>
        ring_nf
  | posInf =>
      by_cases h20 : (20 : Rat) < avgAmp <;>
        by_cases h40 : (40 : Rat) < avgAmp <;>
        by_cases h60 : (60 : Rat) < avgAmp <;>
        simp [computeLoveScore, JSNum.lt, h20, h40, h60, mul_def, add_def,
          JSNum.mul, JSNum.add, JSNum.jsMax, JSNum.jsMin] <;>
        ring_nf
  | negInf =>
      by_cases h20 : (20 : Rat) < avgAmp <;>
        by_cases h40 : (40 : Rat) < avgAmp <;>
        by_cases h60 : (60 : Rat) < avgAmp <;>
        simp [computeLoveScore, JSNum.lt, h20, h40, h60, mul_def, add_def,
          JSNum.mul, JSNum.add, JSNum.jsMax, JSNum.jsMin] <;>
        ring_nf

lemma computeLoveScore_bounds (fa : JSNum) (avgAmp : Rat) :
    ∃ q : Rat, computeLoveScore fa avgAmp = .num q ∧ 50 ≤ q ∧ q ≤ 100 := by
  cases fa with
  | num qf =>
      by_cases hq : (0 : Rat) < qf <;>
        by_cases h20 : (20 : Rat) < avgAmp <;>
        by_cases h40 : (40 : Rat) < avgAmp <;>
        by_cases h60 : (60 : Rat) < avgAmp <;>
        simp [computeLoveScore, JSNum.lt, hq, h20, h40, h60, mul_def, add_def,
          JSNum.mul, JSNum.add, JSNum.jsMax, JSNum.jsMin] <;>
        first
          | (norm_num <;> nlinarith)
          | exact ⟨by norm_num, Or.inr (by nlinarith)⟩
  | nan =>
      by_cases h20 : (20 : Rat) < avgAmp <;>
        by_cases h40 : (40 : Rat) < avgAmp <;>
        by_cases h60 : (60 : Rat) < avgAmp <;>
        simp [computeLoveScore, JSNum.lt, h20, h40, h60, mul_def, add_def,
          JSNum.mul, JSNum.add, JSNum.jsMax, JSNum.jsMin] <;>
        first
          | (norm_num <;> nlinarith)
          | exact ⟨by norm_num, Or.inr (by nlinarith)⟩
  | posInf =>
      by_cases h20 : (20 : Rat) < avgAmp <;>
        by_cases h40 : (40 : Rat) < avgAmp <;>
        by_cases h60 : (60 : Rat) < avgAmp <;>
        simp [computeLoveScore, JSNum.lt, h20, h40, h60, mul_def, add_def,
          JSNum.mul, JSNum.add, JSNum.jsMax, JSNum.jsMin] <;>
        first
          | (norm_num <;> nlinarith)
          | exact ⟨by norm_num, Or.inr (by nlinarith)⟩
  | negInf =>
      by_cases h20 : (20 : Rat) < avgAmp <;>
        by_cases h40 : (40 : Rat) < avgAmp <;>
        by_cases h60 : (60 : Rat) < avgAmp <;>
        simp [computeLoveScore, JSNum.lt, h20, h40, h60, mul_def, add_def,
          JSNum.mul, JSNum.add, JSNum.jsMax, JSNum.jsMin] <;>
        first
          | (norm_num <;> nlinarith)
          | exact ⟨by norm_num, Or.inr (by nlinarith)⟩

lemma category_of_ge_50 (q : Rat) (h : 50 ≤ q) :
    category (.num q) = "Love at First Sight! 💘" ∨
      category (.num q) = "Strong Attraction 💕" ∨
      category (.num q) = "Interested 💗" := by
  simp only [category, JSNum.le_num_num, decide_eq_true_eq]
  split_ifs with h1 h2 h3
  · exact Or.inl rfl
  · exact Or.inr (Or.inl rfl)
  · exact Or.inr (Or.inr rfl)
  · exact absurd (by linarith : (40 : Rat) ≤ q) h3
  · exact absurd (by linarith : (40 : Rat) ≤ q) h3

lemma range_eight : List.range 8 = [0, 1, 2, 3, 4, 5, 6, 7] := rfl

lemma analyzeCapture_love_score (buf : List EEGSample) :
    (analyzeCapture buf).loveAnalysis.love_score =
      computeLoveScore
        (frontalAsymmetry (round2 (avgAmplitude (channelData buf 0)))
          (round2 (avgAmplitude (channelData buf 1))))
        (((List.range 8).map (fun ch => round2 (avgAmplitude (channelData buf ch)))).sum / 8) := by
  simp only [analyzeCapture, range_eight, List.map_cons, List.map_nil, List.getD, List.sum_cons,
    List.sum_nil, List.get?, Option.getD_some]

lemma analyzeImageData_loveScore (buf : List EEGSample) (idx : Nat) :
    (analyzeImageData buf idx).loveScore =
      computeLoveScore
        (frontalAsymmetry (avgAmplitude (channelData buf 0)) (avgAmplitude (channelData buf 1)))
        (((List.range 8).map (fun ch => avgAmplitude (channelData buf ch))).sum / 8) := rfl

lemma analyzeImageData_category (buf : List EEGSample) (idx : Nat) :
    (analyzeImageData buf idx).category = category ((analyzeImageData buf idx).loveScore) := rfl

lemma analyzeCapture_category (buf : List EEGSample) :
    (analyzeCapture buf).loveAnalysis.category =
      category ((analyzeCapture buf).loveAnalysis.love_score) := rfl

/-- Claim C4: for every non-empty CaptureBuffer the composite score follows
the spec formula — frontal asymmetry from the channel-1/2 average
amplitudes, base 50, an asymmetry term only when positive, tiered bonuses
above 20/40/60 cross-channel mean amplitude, then a clamp to the interval
from 0 to 100.  `analyzeImageData` applies the formula to the raw average
amplitudes, `analyzeCapture` to its displayed (2-decimal-rounded) ones. -/
theorem C4_score_formula :
    ∀ (buf : List EEGSample) (idx : Nat), buf ≠ [] →
      (analyzeImageData buf idx).loveScore =
        loveScoreFormulaSpec (avgAmplitude (channelData buf 0))
          (avgAmplitude (channelData buf 1))
          (((List.range 8).map (fun ch => avgAmplitude (channelData buf ch))).sum / 8) ∧
      (analyzeCapture buf).loveAnalysis.love_score =
        loveScoreFormulaSpec (round2 (avgAmplitude (channelData buf 0)))
          (round2 (avgAmplitude (channelData buf 1)))
          (((List.range 8).map (fun ch => round2 (avgAmplitude (channelData buf ch)))).sum / 8) := by
  intro buf idx _
  constructor
  · rw [analyzeImageData_loveScore]
    exact computeLoveScore_eq_formulaSpec _ _ _
  · rw [analyzeCapture_love_score]
    exact computeLoveScore_eq_formulaSpec _ _ _

/-- Witness for C4 at a concrete one-sample buffer. -/
theorem C4_score_formula_witness :
    (analyzeImageData bufC4 0).loveScore =
      loveScoreFormulaSpec (avgAmplitude (channelData bufC4 0))
        (avgAmplitude (channelData bufC4 1))
        (((List.range 8).map (fun ch => avgAmplitude (channelData bufC4 ch))).sum / 8) ∧
    (analyzeCapture bufC4).loveAnalysis.love_score =
      loveScoreFormulaSpec (round2 (avgAmplitude (channelData bufC4 0)))
        (round2 (avgAmplitude (channelData bufC4 1)))
        (((List.range 8).map (fun ch => round2 (avgAmplitude (channelData bufC4 ch)))).sum / 8) :=
  C4_score_formula bufC4 0 (by simp [bufC4])

/-- Claim C5: the category label is a function of the clamped score with
closed-open thresholds at 80/60/40/20; in particular 79.99 falls in the
second category from the top and 80.00 in the top one. -/
theorem C5_category_thresholds :
    (∀ q : Rat, 80 ≤ q → category (.num q) = "Love at First Sight! 💘") ∧
    (∀ q : Rat, 60 ≤ q → q < 80 → category (.num q) = "Strong Attraction 💕") ∧
    (∀ q : Rat, 40 ≤ q → q < 60 → category (.num q) = "Interested 💗") ∧
    (∀ q : Rat, 20 ≤ q → q < 40 → category (.num q) = "Neutral 😐") ∧
    (∀ q : Rat, q < 20 → category (.num q) = "Not Interested 💔") ∧
    category (.num (79.99 : Rat)) = "Strong Attraction 💕" ∧
    category (.num 80) = "Love at First Sight! 💘" := by
  refine ⟨?_, ?_, ?_, ?_, ?_, ?_, ?_⟩
  · intro q h
    simp only [category, JSNum.le_num_num, decide_eq_true_eq]
    rw [if_pos h]
  · intro q h1 h2
    simp only [category, JSNum.le_num_num, decide_eq_true_eq]
    rw [if_neg (by linarith), if_pos h1]
  · intro q h1 h2
    simp only [category, JSNum.le_num_num, decide_eq_true_eq]
    rw [if_neg (by linarith), if_neg (by linarith), if_pos h1]
  · intro q h1 h2
    simp only [category, JSNum.le_num_num, decide_eq_true_eq]
    rw [if_neg (by linarith), if_neg (by linarith), if_neg (by linarith), if_pos h1]
  · intro q h1
    simp only [category, JSNum.le_num_num, decide_eq_true_eq]
    rw [if_neg (by linarith), if_neg (by linarith), if_neg (by linarith),
      if_neg (by linarith)]
  · norm_num [category, JSNum.le]
  · norm_num [category, JSNum.le]

/-- Witness for C5: a score of 65 lands in the second category from the top. -/
theorem C5_category_thresholds_witness :
    category (.num (65 : Rat)) = "Strong Attraction 💕" :=
  C5_category_thresholds.2.1 65 (by norm_num) (by norm_num)

/-- Claim C9: for a non-empty buffer whose channel-1/2 average amplitudes
are not both zero, the score is a finite value of at least 50, so the two
lowest category labels are unreachable from captured data — in both
analysis engines. -/
theorem C9_score_at_least_50 :
    ∀ (buf : List EEGSample) (idx : Nat), buf ≠ [] →
      ¬(avgAmplitude (channelData buf 0) = 0 ∧ avgAmplitude (channelData buf 1) = 0) →
      (∃ q : Rat, (analyzeImageData buf idx).loveScore = .num q ∧ 50 ≤ q) ∧
      (analyzeImageData buf idx).category ≠ "Neutral 😐" ∧
      (analyzeImageData buf idx).category ≠ "Not Interested 💔" ∧
      (∃ q : Rat, (analyzeCapture buf).loveAnalysis.love_score = .num q ∧ 50 ≤ q) ∧
      (analyzeCapture buf).loveAnalysis.category ≠ "Neutral 😐" ∧
      (analyzeCapture buf).loveAnalysis.category ≠ "Not Interested 💔" := by
  intro buf idx _ _
  obtain ⟨q, hq, h50, _⟩ := computeLoveScore_bounds
    (frontalAsymmetry (avgAmplitude (channelData buf 0)) (avgAmplitude (channelData buf 1)))
    (((List.range 8).map (fun ch => avgAmplitude (channelData buf ch))).sum / 8)
  obtain ⟨q', hq', h50', _⟩ := computeLoveScore_bounds
    (frontalAsymmetry (round2 (avgAmplitude (channelData buf 0)))
      (round2 (avgAmplitude (channelData buf 1))))
    (((List.range 8).map (fun ch => round2 (avgAmplitude (channelData buf ch)))).sum / 8)
  have hls := analyzeImageData_loveScore buf idx
  have hls' := analyzeCapture_love_score buf
  have hcat : (analyzeImageData buf idx).category = category (.num q) := by
    rw [analyzeImageData_category, hls, hq]
  have hcat' : (analyzeCapture buf).loveAnalysis.category = category (.num q') := by
    rw [analyzeCapture_category, hls', hq']
  refine ⟨⟨q, by rw [hls, hq], h50⟩, ?_, ?_, ⟨q', by rw [hls', hq'], h50'⟩, ?_, ?_⟩ <;>
    [skip; skip; rw [hcat']; rw [hcat']] <;> try rw [hcat]
  all_goals
    first
      | (rcases category_of_ge_50 q h50 with h | h | h <;> rw [h] <;> decide)
      | (rcases category_of_ge_50 q' h50' with h | h | h <;> rw [h] <;> decide)

/-- Witness for C9 at a concrete one-sample buffer. -/
theorem C9_score_at_least_50_witness :
    (∃ q : Rat, (analyzeImageData bufC9 0).loveScore = .num q ∧ 50 ≤ q) ∧
    (analyzeImageData bufC9 0).category ≠ "Neutral 😐" ∧
    (analyzeImageData bufC9 0).category ≠ "Not Interested 💔" ∧
    (∃ q : Rat, (analyzeCapture bufC9).loveAnalysis.love_score = .num q ∧ 50 ≤ q) ∧
    (analyzeCapture bufC9).loveAnalysis.category ≠ "Neutral 😐" ∧
    (analyzeCapture bufC9).loveAnalysis.category ≠ "Not Interested 💔" :=
  C9_score_at_least_50 bufC9 0 (by simp [bufC9])
    (by norm_num [bufC9, avgAmplitude, channelData])

lemma avgAmplitude_eq_zero_of (buf : List EEGSample) (ch : Nat)
    (h : ∀ s ∈ buf, s.channels.getD ch 0 = 0) :
    avgAmplitude (channelData buf ch) = 0 := by
  unfold avgAmplitude channelData
  rw [List.sum_eq_zero, zero_div]
  intro x hx
  simp only [List.map_map, List.mem_map, Function.comp] at hx
  obtain ⟨s, hs, rfl⟩ := hx
  rw [h s hs]
  simp

/-- Amended claim C10: the frontal-asymmetry division has no zero guard,
and on a non-empty buffer whose first two channels are identically zero it
evaluates to `0 / 0 = NaN`; but the `NaN` fails the `> 0` test, so the
asymmetry term is simply skipped: the reported score is still a finite
value in the interval from 50 to 100 and the category is not one of the two
lowest labels — the `NaN` surfaces only in the displayed
frontal-asymmetry component. -/
theorem C10_nan_skipped :
    ∀ (buf : List EEGSample) (idx : Nat), buf ≠ [] →
      (∀ s ∈ buf, s.channels.getD 0 0 = 0 ∧ s.channels.getD 1 0 = 0) →
      frontalAsymmetry (avgAmplitude (channelData buf 0))
          (avgAmplitude (channelData buf 1)) = .nan ∧
      (analyzeImageData buf idx).frontalAsymmetry = some .nan ∧
      (∃ q : Rat, (analyzeImageData buf idx).loveScore = .num q ∧ 50 ≤ q ∧ q ≤ 100) ∧
      (analyzeImageData buf idx).category ≠ "Neutral 😐" ∧
      (analyzeImageData buf idx).category ≠ "Not Interested 💔" := by
  intro buf idx _ h
  have h0 := avgAmplitude_eq_zero_of buf 0 (fun s hs => (h s hs).1)
  have h1 := avgAmplitude_eq_zero_of buf 1 (fun s hs => (h s hs).2)
  have hfa : frontalAsymmetry (avgAmplitude (channelData buf 0))
      (avgAmplitude (channelData buf 1)) = .nan := by
    rw [h0, h1]
    norm_num [frontalAsymmetry, JSNum.divRat]
  obtain ⟨q, hq, h50, h100⟩ := computeLoveScore_bounds
    (frontalAsymmetry (avgAmplitude (channelData buf 0)) (avgAmplitude (channelData buf 1)))
    (((List.range 8).map (fun ch => avgAmplitude (channelData buf ch))).sum / 8)
  have hls := analyzeImageData_loveScore buf idx
  have hdisp : (analyzeImageData buf idx).frontalAsymmetry =
      some (.num 50 + frontalAsymmetry (avgAmplitude (channelData buf 0))
        (avgAmplitude (channelData buf 1)) * .num 50) := rfl
  have hcat : (analyzeImageData buf idx).category = category (.num q) := by
    rw [analyzeImageData_category, hls, hq]
  refine ⟨hfa, ?_, ⟨q, by rw [hls, hq], h50, h100⟩, ?_, ?_⟩
  · rw [hdisp, hfa]
    rfl
  · rcases category_of_ge_50 q h50 with hc | hc | hc <;> rw [hcat, hc] <;> decide
  · rcases category_of_ge_50 q h50 with hc | hc | hc <;> rw [hcat, hc] <;> decide

/-- Counterexample to claim C10 as stated: on `bufC10` the frontal
asymmetry is indeed `NaN`, but the reported score is the plain value 60
(well inside the interval from 0 to 100: the cross-channel mean amplitude
22.5 earns the +10 bonus) and the category is the middle-upper
"Strong Attraction", not the lowest label. -/
theorem C10_counterexample :
    frontalAsymmetry (avgAmplitude (channelData bufC10 0))
        (avgAmplitude (channelData bufC10 1)) = .nan ∧
    (analyzeImageData bufC10 0).loveScore = .num 60 ∧
    (analyzeImageData bufC10 0).category = "Strong Attraction 💕" ∧
    (analyzeImageData bufC10 0).category ≠ "Not Interested 💔" := by
  have hcat : (analyzeImageData bufC10 0).category = "Strong Attraction 💕" := by
    norm_num [bufC10, analyzeImageData, channelData, avgAmplitude, frontalAsymmetry,
      JSNum.divRat, computeLoveScore, category, range_eight, JSNum.lt, JSNum.le,
      mul_def, add_def, JSNum.mul, JSNum.add, JSNum.jsMax, JSNum.jsMin]
  refine ⟨?_, ?_, hcat, by rw [hcat]; decide⟩ <;>
    norm_num [bufC10, analyzeImageData, channelData, avgAmplitude, frontalAsymmetry,
      JSNum.divRat, computeLoveScore, category, range_eight, JSNum.lt, JSNum.le,
      mul_def, add_def, JSNum.mul, JSNum.add, JSNum.jsMax, JSNum.jsMin]

/-- Witness for the amended claim C10 at the concrete buffer `bufC10`. -/
theorem C10_nan_skipped_witness :
    frontalAsymmetry (avgAmplitude (channelData bufC10 0))
        (avgAmplitude (channelData bufC10 1)) = .nan ∧
    (analyzeImageData bufC10 0).frontalAsymmetry = some .nan ∧
    (∃ q : Rat, (analyzeImageData bufC10 0).loveScore = .num q ∧ 50 ≤ q ∧ q ≤ 100) ∧
    (analyzeImageData bufC10 0).category ≠ "Neutral 😐" ∧
    (analyzeImageData bufC10 0).category ≠ "Not Interested 💔" :=
  C10_nan_skipped bufC10 0 (by simp [bufC10])
    (by intro s hs; simp [bufC10] at hs; simp [hs])

/-- Counterexample to claim C1 as stated: a multi-stimulus session in which
every capture window ends empty.  `analyzeAllImages` still produces a
result entry for stimulus 0 — and its reported score is 0 (the source
pushes `loveScore: '0'`), merely tagged with the distinct category
"No data".  So the multi-stimulus flow does report a score of 0 for an
empty capture. -/
theorem C1_counterexample :
    (analyzeAllImages (List.replicate 5 [])).get? 0 =
      some { imageIndex := 0, imagePath := "/photo/1.png", loveScore := .num 0,
             category := "No data", avgAmplitude := none,
             frontalAsymmetry := none, packets := 0 } := by
  rfl

/-- Amended claim C1: in the single-capture flow an empty buffer at the
window's end yields the distinct capture-failure outcome and no analysis; in the
multi-stimulus flow an empty buffer is never analyzed, but instead of
producing no entry it yields a placeholder entry with the distinct
category "No data" and a reported score of 0. -/
theorem C1_empty_capture :
    captureWindowOutcome [] = .captureFailure ∧
    (∀ buf : List EEGSample, buf ≠ [] → captureWindowOutcome buf = .analysisRequested buf) ∧
    (∀ (captured : List (List EEGSample)) (i : Nat), i < images.length →
      (captured.getD i []).length = 0 →
      (analyzeAllImages captured).get? i = some (noDataResult i)) ∧
    (∀ i : Nat, (noDataResult i).loveScore = .num 0 ∧ (noDataResult i).category = "No data") := by
  refine ⟨rfl, ?_, ?_, fun i => ⟨rfl, rfl⟩⟩
  · intro buf hne
    unfold captureWindowOutcome
    rw [if_neg (by simpa using hne)]
  · intro captured i hi hlen
    unfold analyzeAllImages
    rw [List.get?_map, List.get?_range hi, Option.map_some']
    rw [if_pos hlen]

/-- Witness for the amended claim C1: with all five capture buffers empty,
stimulus 2 gets the no-data placeholder. -/
theorem C1_empty_capture_witness :
    (analyzeAllImages [[], [], [], [], []]).get? 2 = some (noDataResult 2) :=
  C1_empty_capture.2.2.1 [[], [], [], [], []] 2 (by norm_num [images]) rfl

lemma runCapture_cons (st : CaptureState) (e : CaptureEvent) (evs : List CaptureEvent) :
    runCapture st (e :: evs) = runCapture (stepCapture st e) evs := rfl

lemma runCapture_append (st : CaptureState) (l1 l2 : List CaptureEvent) :
    runCapture st (l1 ++ l2) = runCapture (runCapture st l1) l2 :=
  List.foldl_append _ _ _ _

lemma runCapture_sampleMsgs (l : List EEGSample) :
    ∀ acc : List EEGSample,
      runCapture ⟨true, acc⟩ (l.map .sampleMsg) = ⟨true, acc ++ l⟩ := by
  induction l with
  | nil => intro acc; simp [runCapture]
  | cons x tl ih =>
      intro acc
      rw [List.map_cons, runCapture_cons]
      show runCapture ⟨true, acc ++ [x]⟩ (tl.map .sampleMsg) = _
      rw [ih (acc ++ [x])]
      simp

lemma jsDashboardCapture_stale (stream : List EEGSample) :
    jsDashboardCapture false stream = [] := by
  unfold jsDashboardCapture
  have : ∀ (l : List EEGSample) (buf : List EEGSample),
      l.foldl (fun buf s => if (false : Bool) then buf ++ [s] else buf) buf = buf := by
    intro l
    induction l with
    | nil => intro buf; rfl
    | cons x tl ih => intro buf; rw [List.foldl_cons]; simpa using ih buf
  simpa using this stream []

/-- Claim C2 (theorem recording the divergence): the ref-based capture of
`EEGDashboard.tsx` / `ImageLoveAnalysis.tsx` appends every sample arriving
between window open and window close, in arrival order — a 1250-sample
stream yields a 1250-sample buffer; but the state-closure capture of the
plain `EEGDashboard.js` component appends nothing at all (its handler
forever reads the mount-time `isCapturing = false`), so the same
1250-sample stream yields an empty buffer. -/
theorem C2_no_sample_lost :
    (∀ (st : CaptureState) (stream : List EEGSample),
      runCapture st (.windowOpen :: (stream.map .sampleMsg ++ [.windowClose])) =
        ⟨false, stream⟩) ∧
    (∀ stream : List EEGSample, jsDashboardCapture false stream = []) ∧
    (runCapture ⟨false, []⟩
        (.windowOpen :: (streamC2.map .sampleMsg ++ [.windowClose]))).captured.length = 1250 ∧
    (jsDashboardCapture false streamC2).length = 0 := by
  have hgen : ∀ (st : CaptureState) (stream : List EEGSample),
      runCapture st (.windowOpen :: (stream.map .sampleMsg ++ [.windowClose])) =
        ⟨false, stream⟩ := by
    intro st stream
    rw [runCapture_cons]
    show runCapture ⟨true, []⟩ (stream.map .sampleMsg ++ [.windowClose]) = _
    rw [runCapture_append, runCapture_sampleMsgs stream []]
    simp [runCapture, stepCapture]
  refine ⟨hgen, jsDashboardCapture_stale, ?_, ?_⟩
  · have h := congrArg (fun st : CaptureState => st.captured.length)
      (hgen ⟨false, []⟩ streamC2)
    simp only at h
    rw [h]
    show streamC2.length = 1250
    simp only [streamC2, List.length_map, List.length_range]
  · rw [jsDashboardCapture_stale]
    rfl

/-- Claim C8: the analysis of a buffer is a pure, deterministic function of
the buffer's contents — identical sample sequences give identical
`AnalysisResult`s in both engines, independent of any other state (both
embedded engines take nothing but the buffer). -/
theorem C8_analysis_deterministic :
    ∀ (b1 b2 : List EEGSample) (idx : Nat), b1 = b2 →
      analyzeImageData b1 idx = analyzeImageData b2 idx ∧
      analyzeCapture b1 = analyzeCapture b2 := by
  rintro b1 _ idx rfl
  exact ⟨rfl, rfl⟩

/-- Witness for C8: two runs on the same concrete buffer coincide. -/
theorem C8_analysis_deterministic_witness :
    analyzeImageData bufC8 0 = analyzeImageData bufC8 0 ∧
    analyzeCapture bufC8 = analyzeCapture bufC8 :=
  C8_analysis_deterministic bufC8 bufC8 0 rfl

lemma zeroCrossings_eq_spec : ∀ cd : List Rat, zeroCrossings cd = zeroCrossCountSpec cd := by
  intro cd
  induction cd with
  | nil => rfl
  | cons a tl ih =>
      cases tl with
      | nil => rfl
      | cons b tl2 =>
          show (if (a < 0 ∧ 0 < b) ∨ (0 < a ∧ b < 0) then 1 else 0) +
              zeroCrossings (b :: tl2) = _
          rw [ih]
          simp only [zeroCrossCountSpec, List.tail_cons, List.zip_cons_cons,
            List.countP_cons, decide_eq_true_eq]
          by_cases hcond : (a < 0 ∧ 0 < b) ∨ (0 < a ∧ b < 0) <;>
            simp [hcond, Nat.add_comm]

/-- Claim C6: the dominant-frequency estimate of a channel is the
zero-crossing count over the window, divided by 2, divided by the 5-second
window duration, a zero crossing being a strictly-negative to
strictly-positive transition (or vice versa) of consecutive values. -/
theorem C6_dominant_frequency :
    ∀ (buf : List EEGSample) (ch : Nat), buf ≠ [] →
      zeroCrossings (channelData buf ch) = zeroCrossCountSpec (channelData buf ch) ∧
      dominantFreq (channelData buf ch) =
        ((zeroCrossCountSpec (channelData buf ch) : Rat)) / 2 / 5 := by
  intro buf ch _
  refine ⟨zeroCrossings_eq_spec _, ?_⟩
  unfold dominantFreq
  rw [zeroCrossings_eq_spec]

/-- Witness for C6 at the concrete buffer `bufC6`. -/
theorem C6_dominant_frequency_witness :
    zeroCrossings (channelData bufC6 0) = zeroCrossCountSpec (channelData bufC6 0) ∧
    dominantFreq (channelData bufC6 0) =
      ((zeroCrossCountSpec (channelData bufC6 0) : Rat)) / 2 / 5 :=
  C6_dominant_frequency bufC6 0 (by simp [bufC6])

/-- Claim C7: each band power equals `avgAmplitude * 0.8` when the
dominant frequency falls in the band's canonical range (delta below 4 Hz,
theta 4–8, alpha 8–12, beta 12–30, gamma at least 30) and otherwise equals
`avgAmplitude * 0.1` or `avgAmplitude * 0.2`; these per-channel bands are
exactly what `analyzeCapture` reports. -/
theorem C7_band_powers :
    ∀ (buf : List EEGSample) (ch : Nat), buf ≠ [] →
      ((analyzeCapture buf).frequencyBands =
        (List.range 8).map (fun c => ⟨c + 1, frequencyBands (channelData buf c)⟩)) ∧
      (dominantFreq (channelData buf ch) < 4 →
        (frequencyBands (channelData buf ch)).delta =
          avgAmplitude (channelData buf ch) * 0.8) ∧
      (¬dominantFreq (channelData buf ch) < 4 →
        (frequencyBands (channelData buf ch)).delta =
            avgAmplitude (channelData buf ch) * 0.1 ∨
          (frequencyBands (channelData buf ch)).delta =
            avgAmplitude (channelData buf ch) * 0.2) ∧
      (4 ≤ dominantFreq (channelData buf ch) ∧ dominantFreq (channelData buf ch) < 8 →
        (frequencyBands (channelData buf ch)).theta =
          avgAmplitude (channelData buf ch) * 0.8) ∧
      (¬(4 ≤ dominantFreq (channelData buf ch) ∧ dominantFreq (channelData buf ch) < 8) →
        (frequencyBands (channelData buf ch)).theta =
            avgAmplitude (channelData buf ch) * 0.1 ∨
          (frequencyBands (channelData buf ch)).theta =
            avgAmplitude (channelData buf ch) * 0.2) ∧
      (8 ≤ dominantFreq (channelData buf ch) ∧ dominantFreq (channelData buf ch) < 12 →
        (frequencyBands (channelData buf ch)).alpha =
          avgAmplitude (channelData buf ch) * 0.8) ∧
      (¬(8 ≤ dominantFreq (channelData buf ch) ∧ dominantFreq (channelData buf ch) < 12) →
        (frequencyBands (channelData buf ch)).alpha =
            avgAmplitude (channelData buf ch) * 0.1 ∨
          (frequencyBands (channelData buf ch)).alpha =
            avgAmplitude (channelData buf ch) * 0.2) ∧
      (12 ≤ dominantFreq (channelData buf ch) ∧ dominantFreq (channelData buf ch) < 30 →
        (frequencyBands (channelData buf ch)).beta =
          avgAmplitude (channelData buf ch) * 0.8) ∧
      (¬(12 ≤ dominantFreq (channelData buf ch) ∧ dominantFreq (channelData buf ch) < 30) →
        (frequencyBands (channelData buf ch)).beta =
            avgAmplitude (channelData buf ch) * 0.1 ∨
          (frequencyBands (channelData buf ch)).beta =
            avgAmplitude (channelData buf ch) * 0.2) ∧
      (30 ≤ dominantFreq (channelData buf ch) →
        (frequencyBands (channelData buf ch)).gamma =
          avgAmplitude (channelData buf ch) * 0.8) ∧
      (¬30 ≤ dominantFreq (channelData buf ch) →
        (frequencyBands (channelData buf ch)).gamma =
            avgAmplitude (channelData buf ch) * 0.1 ∨
          (frequencyBands (channelData buf ch)).gamma =
            avgAmplitude (channelData buf ch) * 0.2) := by
  intro buf ch _
  refine ⟨rfl, ?_, ?_, ?_, ?_, ?_, ?_, ?_, ?_, ?_, ?_⟩ <;> intro h <;>
    simp only [frequencyBands]
  · rw [if_pos h]
  · rw [if_neg h]; exact Or.inl rfl
  · rw [if_pos h]
  · rw [if_neg h]; exact Or.inl rfl
  · rw [if_pos h]
  · rw [if_neg h]; exact Or.inr rfl
  · rw [if_pos h]
  · rw [if_neg h]; exact Or.inr rfl
  · rw [if_pos h]
  · rw [if_neg h]; exact Or.inl rfl

/-- Witness for C7: on `bufC7`, channel 0 is a delta-band channel, so its
delta power is `avgAmplitude * 0.8`. -/
theorem C7_band_powers_witness :
    (frequencyBands (channelData bufC7 0)).delta =
      avgAmplitude (channelData bufC7 0) * 0.8 :=
  (C7_band_powers bufC7 0 (by simp [bufC7])).2.1
    (by norm_num [bufC7, channelData, dominantFreq, zeroCrossings])

lemma winnerStep_self (r : ImageResult) : winnerStep r r = r := by
  simp [winnerStep]

lemma foldl_winnerStep_firstMax :
    ∀ (l : List ImageResult) (acc : ImageResult),
      acc.loveScore.isNum = true → (∀ x ∈ l, x.loveScore.isNum = true) →
      (l.foldl winnerStep acc = acc ∧
        ∀ x ∈ l, x.loveScore.toRat ≤ acc.loveScore.toRat) ∨
      (∃ l1 w l2, l = l1 ++ w :: l2 ∧ l.foldl winnerStep acc = w ∧
        acc.loveScore.toRat < w.loveScore.toRat ∧
        (∀ x ∈ l1, x.loveScore.toRat < w.loveScore.toRat) ∧
        (∀ x ∈ l2, x.loveScore.toRat ≤ w.loveScore.toRat)) := by
  intro l
  induction l with
  | nil => intro acc _ _; exact Or.inl ⟨rfl, by simp⟩
  | cons x tl ih =>
      intro acc hacc hall
      have hx : x.loveScore.isNum = true := hall x (by simp)
      have htl : ∀ y ∈ tl, y.loveScore.isNum = true := fun y hy => hall y (by simp [hy])
      rw [List.foldl_cons]
      by_cases hlt : JSNum.lt acc.loveScore x.loveScore = true
      · have hstep : winnerStep acc x = x := by unfold winnerStep; rw [if_pos hlt]
        rw [hstep]
        have hax : acc.loveScore.toRat < x.loveScore.toRat :=
          (JSNum.lt_true_iff_toRat _ _ hacc hx).mp hlt
        rcases ih x hx htl with ⟨heq, hle⟩ | ⟨l1, w, l2, hsplit, hres, hxw, hl1, hl2⟩
        · exact Or.inr ⟨[], x, tl, by simp, heq, hax, by simp, hle⟩
        · refine Or.inr ⟨x :: l1, w, l2, by rw [hsplit]; rfl, hres,
            lt_trans hax hxw, ?_, hl2⟩
          intro y hy
          rcases List.mem_cons.mp hy with rfl | hy'
          · exact hxw
          · exact hl1 y hy'
      · have hstep : winnerStep acc x = acc := by unfold winnerStep; rw [if_neg hlt]
        rw [hstep]
        have hxa : x.loveScore.toRat ≤ acc.loveScore.toRat := by
          refine le_of_not_lt fun hcon => hlt ?_
          exact (JSNum.lt_true_iff_toRat _ _ hacc hx).mpr hcon
        rcases ih acc hacc htl with ⟨heq, hle⟩ | ⟨l1, w, l2, hsplit, hres, haw, hl1, hl2⟩
        · refine Or.inl ⟨heq, ?_⟩
          intro y hy
          rcases List.mem_cons.mp hy with rfl | hy'
          · exact hxa
          · exact hle y hy'
        · refine Or.inr ⟨x :: l1, w, l2, by rw [hsplit]; rfl, hres, haw, ?_, hl2⟩
          intro y hy
          rcases List.mem_cons.mp hy with rfl | hy'
          · exact lt_of_le_of_lt hxa haw
          · exact hl1 y hy'

/-- Claim C3: the winner reduce of the multi-stimulus flow returns the
stimulus with the strictly greatest score, and on ties the first
occurrence of the maximum: the result splits the list as `l1 ++ w :: l2`
with everything in `l1` strictly below `w` and everything in the list at
most `w`.  On the claim's example scores the winner is index 1. -/
theorem C3_winner_first_max :
    (∀ rs : List ImageResult, rs ≠ [] →
      (∀ x ∈ rs, x.loveScore.isNum = true) →
      ∃ w l1 l2, findWinner rs = some w ∧ rs = l1 ++ w :: l2 ∧
        (∀ x ∈ l1, x.loveScore.toRat < w.loveScore.toRat) ∧
        (∀ x ∈ rs, x.loveScore.toRat ≤ w.loveScore.toRat)) ∧
    (findWinner scoresExample).map (fun r => r.imageIndex) = some 1 := by
  constructor
  · intro rs hne hall
    match rs, hne with
    | r :: tl, _ =>
      have hr : r.loveScore.isNum = true := hall r (by simp)
      have htl : ∀ y ∈ tl, y.loveScore.isNum = true := fun y hy => hall y (by simp [hy])
      have hfw : findWinner (r :: tl) = some (tl.foldl winnerStep r) := by
        show some ((r :: tl).foldl winnerStep r) = _
        rw [List.foldl_cons, winnerStep_self]
      rcases foldl_winnerStep_firstMax tl r hr htl with
        ⟨heq, hle⟩ | ⟨l1, w, l2, hsplit, hres, hrw, hl1, hl2⟩
      · refine ⟨r, [], tl, by rw [hfw, heq], rfl, by simp, ?_⟩
        intro y hy
        rcases List.mem_cons.mp hy with rfl | hy'
        · exact le_refl _
        · exact hle y hy'
      · refine ⟨w, r :: l1, l2, by rw [hfw, hres], by rw [hsplit]; rfl, ?_, ?_⟩
        · intro y hy
          rcases List.mem_cons.mp hy with rfl | hy'
          · exact hrw
          · exact hl1 y hy'
        · intro y hy
          rcases List.mem_cons.mp hy with rfl | hy'
          · exact le_of_lt hrw
          · rw [hsplit] at hy'
            rcases List.mem_append.mp hy' with hy1 | hy2
            · exact le_of_lt (hl1 y hy1)
            · rcases List.mem_cons.mp hy2 with rfl | hy3
              · exact le_refl _
              · exact hl2 y hy3
  · norm_num [findWinner, scoresExample, winnerStep, JSNum.lt]

/-- Witness for C3 at the claim's example scores. -/
theorem C3_winner_first_max_witness :
    ∃ w l1 l2, findWinner scoresExample = some w ∧ scoresExample = l1 ++ w :: l2 ∧
      (∀ x ∈ l1, x.loveScore.toRat < w.loveScore.toRat) ∧
      (∀ x ∈ scoresExample, x.loveScore.toRat ≤ w.loveScore.toRat) :=
  C3_winner_first_max.1 scoresExample (by simp [scoresExample])
    (by
      intro x hx
      simp only [scoresExample, List.mem_cons, List.not_mem_nil, or_false] at hx
      rcases hx with rfl | rfl | rfl | rfl | rfl <;> rfl)

end EEG
